import Mathlib

/-!
Shallow embedding of `haroon-fayyaz/automated-translator`
(`src/app.py`, `src/services/translator.py`).

The browser/DOM is an external oracle: each remote interaction's outcome
(whether a step raises, which element texts the page shows) is an input to
the embedded functions, so the embedded control flow is exactly the Python
control flow of the source, parameterised by the oracle's answers.
-/

namespace AutoTranslatorModel

/-- Python `str.strip()`: drop whitespace from both ends.
Used for `text.strip()` checks throughout `translator.py`. -/
def pyStrip (s : String) : String :=
  ⟨((s.data.dropWhile Char.isWhitespace).reverse.dropWhile Char.isWhitespace).reverse⟩

/-- The per-character test of `GoogleTranslateWebService._contains_urdu`
(translator.py lines 540-547): Python `range(0x0600, 0x06FF)` and
`range(0xFE70, 0xFEFF)` membership — note both upper bounds are EXCLUSIVE. -/
def isUrduChar (c : Char) : Bool :=
  (0x0600 ≤ c.toNat && c.toNat < 0x06FF) || (0xFE70 ≤ c.toNat && c.toNat < 0xFEFF)

/-- Embeds `GoogleTranslateWebService._contains_urdu` (translator.py lines 535-549):
true iff some character of the text lies in the configured ranges.
An empty text gives `False` (the `if not text` guard). -/
def contains_urdu (text : String) : Bool :=
  text.data.any isUrduChar

/-- Full Arabic Unicode block, INCLUSIVE of U+06FF, as the claim's
"Arabic/Urdu block" reads. -/
def inArabicBlock (c : Char) : Bool :=
  0x0600 ≤ c.toNat && c.toNat ≤ 0x06FF

/-- Latin code points (Basic Latin through Latin Extended-B). -/
def isLatinChar (c : Char) : Bool :=
  c.toNat < 0x0250

/-- Embeds `GoogleTranslateWebService._extract_translation` (translator.py lines
493-533): scans candidate element texts in DOM order (all selectors
concatenated, the right-to-left fallback scan included), returns the first
stripped element text that is non-empty and `_contains_urdu`, else `""`. -/
def extract_translation (elems : List String) : String :=
  match elems.find? (fun e => pyStrip e != "" && contains_urdu (pyStrip e)) with
  | some e => pyStrip e
  | none => ""

/-- Oracle for one iteration of the retry loop in
`GoogleTranslateWebService.translate_single` (translator.py lines 395-489):
the remote browser's behaviour during that attempt. -/
structure AttemptEnv where
  /-- Whether `"translate.google.com" in self.driver.current_url` at loop entry. -/
  onPage : Bool
  /-- Whether `_navigate_to_translator()` raises (only reached when not on page). -/
  navRaises : Bool
  /-- some input-textarea selector resolves; when false the code raises
  `Exception("Could not find input textarea")`. -/
  inputFound : Bool
  /-- the click/clear/type interaction raises. -/
  typeRaises : Bool
  /-- element texts visible to the first `_extract_translation()` call. -/
  elems1 : List String
  /-- the soft-recovery clicks (body, then input area) raise. -/
  clickRaises : Bool
  /-- element texts visible to the soft-recovery `_extract_translation()`. -/
  elems2 : List String
deriving DecidableEq

/-- How one loop iteration of `translate_single` ends: an early `return`
with a translation, a fall-through (retry / final identity return), or an
exception reaching the iteration's `except` handler. -/
inductive AttemptOutcome where
  | success (s : String)
  | failed
  | raised
deriving DecidableEq

/-- Whether the outcome carries a translation. -/
def AttemptOutcome.isSuccess : AttemptOutcome → Bool
  | .success _ => true
  | .failed => false
  | .raised => false

/-- One iteration of the `for attempt in range(3)` body of `translate_single`
(translator.py lines 395-476). `isLast` is `attempt == 2`, i.e. the
`attempt < 2` soft-recovery branch is skipped. -/
def runAttempt (text : String) (e : AttemptEnv) (isLast : Bool) : AttemptOutcome :=
  if !e.onPage && e.navRaises then .raised
  else if !e.inputFound then .raised
  else if e.typeRaises then .raised
  else if extract_translation e.elems1 != "" && extract_translation e.elems1 != text
      && pyStrip (extract_translation e.elems1) != "" then
    .success (extract_translation e.elems1)
  else if !isLast then
    if e.clickRaises then .failed
    else if extract_translation e.elems2 != "" && extract_translation e.elems2 != text then
      .success (extract_translation e.elems2)
    else .failed
  else .failed

/-- How the retry loop proceeds after one attempt: an early `return` of the
attempt's translation, or — for `.failed` (fall-through) and `.raised`
(caught by the iteration's `except`) alike — whatever the remaining
iterations produce. -/
def resumeWith (o : AttemptOutcome) (next : String) : String :=
  match o with
  | .success s => s
  | .failed => next
  | .raised => next

/-- Embeds `GoogleTranslateWebService.translate_single` (translator.py lines
390-491): the `if not text or not text.strip(): return text` guard, then the
three-iteration retry loop. An iteration's `.failed` or `.raised` outcome
continues to the next attempt (the `except` handler's best-effort
re-navigation only changes what the next attempt's oracle sees); on the last
attempt both paths `return text`. -/
def translate_single (text : String) (env : Nat → AttemptEnv) : String :=
  if text == "" || pyStrip text == "" then text
  else
    resumeWith (runAttempt text (env 0) false)
      (resumeWith (runAttempt text (env 1) false)
        (resumeWith (runAttempt text (env 2) true) text))

/-- An attempt oracle on which every interaction step fails: the input
textarea is never found, so every attempt raises. -/
def failAttemptEnv : AttemptEnv :=
  { onPage := true, navRaises := false, inputFound := false, typeRaises := false,
    elems1 := [], clickRaises := false, elems2 := [] }

/-- Python dict assignment `d[k] = v`: update in place when the key exists
(keeping its insertion position), else append a new entry. -/
def dictInsert (d : List (String × String)) (k v : String) : List (String × String) :=
  if d.any (fun p => p.1 == k) then d.map (fun p => if p.1 == k then (k, v) else p)
  else d ++ [(k, v)]

/-- The `for i, text in enumerate(texts, 1)` loop of
`GoogleTranslateWebService.translate_batch` (translator.py lines 558-562):
translate each item with `translate_single` (which never raises) under that
item's oracle, storing `results[text] = translated`. -/
def batchLoop (env : Nat → Nat → AttemptEnv) :
    List String → Nat → List (String × String) → List (String × String)
  | [], _, acc => acc
  | t :: ts, i, acc => batchLoop env ts (i + 1) (dictInsert acc t (translate_single t (env i)))

/-- Embeds `GoogleTranslateWebService.translate_batch` (translator.py lines 551-567):
`results = {}`, then inside `try:` an initial `_navigate_to_translator()`
followed by the item loop; an exception from the navigation (`navOk = false`)
is caught by the `except` and the dict accumulated so far — still empty — is
returned. -/
def translate_batch (texts : List String) (navOk : Bool)
    (env : Nat → Nat → AttemptEnv) : List (String × String) :=
  if navOk then batchLoop env texts 0 [] else []

/-- State of an `AutoTranslator` facade (translator.py lines 578-629):
`service` is `None`, or holds a `GoogleTranslateWebService` whose recorded
flag says whether its driver has been quit; `sessions` counts how many
service (browser-session) objects were ever constructed. -/
structure AutoSt where
  service : Option Bool
  sessions : Nat
deriving DecidableEq

/-- Either a single string or a list — the `Union[str, List[str]]` argument
of `AutoTranslator.translate`. -/
def TranslateInput := String ⊕ List String

/-- The `except` branch of `AutoTranslator.translate` (translator.py lines
619-624): `{addresses: addresses}` for a string, the dict comprehension
`{addr: addr for addr in addresses}` for a list. -/
def identityFallback : String ⊕ List String → List (String × String)
  | .inl s => [(s, s)]
  | .inr l => l.foldl (fun d a => dictInsert d a a) []

/-- The string/list dispatch of `AutoTranslator.translate` (translator.py
lines 613-617), once a service exists. -/
def dispatchTranslate (input : String ⊕ List String) (navOk : Bool)
    (env : Nat → Nat → AttemptEnv) : List (String × String) :=
  match input with
  | .inl s => [(s, translate_single s (env 0))]
  | .inr l => translate_batch l navOk env

/-- The `try:` body of `AutoTranslator.translate` (translator.py lines
597-617): lazily construct the `GoogleTranslateWebService` when `service is
None` — its constructor raises when the environment/driver setup fails
(`setupOk = false`) — then dispatch. NOTE: no lock guards this body. -/
def autoTranslateBody (st : AutoSt) (setupOk : Bool) (input : String ⊕ List String)
    (navOk : Bool) (env : Nat → Nat → AttemptEnv) :
    Except Unit (AutoSt × List (String × String)) :=
  match st.service with
  | none =>
    if setupOk then
      let st' : AutoSt := { service := some false, sessions := st.sessions + 1 }
      Except.ok (st', dispatchTranslate input navOk env)
    else Except.error ()
  | some _ => Except.ok (st, dispatchTranslate input navOk env)

/-- Embeds `AutoTranslator.translate` (translator.py lines 589-624): the `try:` body
wrapped in `except Exception:` which converts ANY exception — the service
constructor's launch failure included — into the identity-fallback dict. -/
def autoTranslate (st : AutoSt) (setupOk : Bool) (input : String ⊕ List String)
    (navOk : Bool) (env : Nat → Nat → AttemptEnv) : AutoSt × List (String × String) :=
  match autoTranslateBody st setupOk input navOk env with
  | .ok r => r
  | .error _ => (st, identityFallback input)

/-- Embeds `self.driver.quit()`: succeeds on a live driver; modelled as raising when
the driver was already quit. Returns the new quit flag. -/
def driverQuit (alreadyQuit : Bool) : Except Unit Bool :=
  if alreadyQuit then .error () else .ok true

/-- Embeds `GoogleTranslateWebService.close` (translator.py lines 569-576):
`try: self.driver.quit() except: pass` — any quit error is swallowed.
Returns the service's new driver-quit flag; never an error. -/
def serviceClose (quitFlag : Bool) : Except Unit Bool :=
  match driverQuit quitFlag with
  | .ok q => .ok q
  | .error _ => .ok true

/-- Embeds `AutoTranslator.close` (translator.py lines 626-629): `if self.service:
self.service.close()`. The `service` field is NOT reset to `None`. -/
def autoClose (st : AutoSt) : Except Unit AutoSt :=
  match st.service with
  | none => .ok st
  | some q =>
    match serviceClose q with
    | .ok q' => .ok { st with service := some q' }
    | .error e => .error e

/-- Interleaving state for two concurrent callers (threads A and B) racing
through lazy initialization. `resource` — the shared `service`/`translator`
global is set; `created` — how many expensive objects were constructed;
per-thread `obs*` — the thread's recorded answer to its `is None` check
(`none` = not yet executed); per-thread `done*` — the thread finished. -/
structure LazyInitState where
  resource : Bool
  created : Nat
  obsA : Option Bool
  doneA : Bool
  obsB : Option Bool
  doneB : Bool
deriving DecidableEq

/-- Initial state: no resource, nothing created, neither thread started. -/
def lazyStart : LazyInitState :=
  { resource := false, created := 0, obsA := none, doneA := false,
    obsB := none, doneB := false }

/-- One scheduler step of the UNGUARDED lazy initialization in
`AutoTranslator.translate` (translator.py lines 598-611): `if self.service
is None:` then, as a separate later action, `self.service =
GoogleTranslateWebService(...)`. `t = false` runs thread A, `t = true`
thread B. A thread first records the `is None` test, then on its next step
constructs the service iff it observed `None`. -/
def unguardedStep (s : LazyInitState) (t : Bool) : LazyInitState :=
  if t then
    match s.obsB with
    | none => { s with obsB := some (!s.resource) }
    | some sawNone =>
      if s.doneB then s
      else if sawNone then
        { s with resource := true, created := s.created + 1, doneB := true }
      else { s with doneB := true }
  else
    match s.obsA with
    | none => { s with obsA := some (!s.resource) }
    | some sawNone =>
      if s.doneA then s
      else if sawNone then
        { s with resource := true, created := s.created + 1, doneA := true }
      else { s with doneA := true }

/-- One scheduler step of the GUARDED initialization in `app.get_translator`
(app.py lines 20-29): `with translator_lock:` makes the check-then-create
region atomic, so a scheduled thread completes the whole region at once. -/
def guardedStep (s : LazyInitState) (t : Bool) : LazyInitState :=
  if t then
    if s.doneB then s
    else if s.resource then { s with doneB := true }
    else { s with resource := true, created := s.created + 1, doneB := true }
  else
    if s.doneA then s
    else if s.resource then { s with doneA := true }
    else { s with resource := true, created := s.created + 1, doneA := true }

/-- Run the unguarded machine under a schedule. -/
def runUnguarded (sched : List Bool) : LazyInitState :=
  sched.foldl unguardedStep lazyStart

/-- Run the lock-guarded machine under a schedule. -/
def runGuarded (sched : List Bool) : LazyInitState :=
  sched.foldl guardedStep lazyStart

/-- JSON values, as far as the routes in `app.py` inspect them. -/
inductive JVal where
  | str : String → JVal
  | arr : List JVal → JVal
  | num : Int → JVal

/-- A request body at the `request.get_json()` boundary: absent/null, or a
JSON object given as a field list. -/
def ReqBody := Option (List (String × JVal))

/-- Embeds `k in data` / `data[k]` on a JSON object. -/
def getField (fields : List (String × JVal)) (k : String) : Option JVal :=
  (fields.find? (fun p => p.1 == k)).map Prod.snd

/-- A route's response body. -/
inductive RespBody where
  | err : String → RespBody
  | okSingle : JVal → List (String × String) → RespBody
  | okBatch : List (String × String) → Nat → RespBody

/-- Embeds `app.translate` (app.py lines 42-78): `if not data or "text" not in
data:` → 400 (an empty JSON object is falsy in Python); otherwise the
translator core `core` is consulted and a 200 response built from its
result. -/
def translateRoute (body : Option (List (String × JVal)))
    (core : JVal → List (String × String)) : Nat × RespBody :=
  match body with
  | none => (400, .err "Text is required")
  | some fields =>
    if fields.isEmpty then (400, .err "Text is required")
    else
      match getField fields "text" with
      | none => (400, .err "Text is required")
      | some tv => (200, .okSingle tv (core tv))

/-- Embeds `app.translate_batch` (app.py lines 81-108): `if not data or "texts" not
in data or not isinstance(data["texts"], list):` → 400; `if len(texts) >
10:` → 400; otherwise the core is consulted. -/
def translateBatchRoute (body : Option (List (String × JVal)))
    (core : List JVal → List (String × String)) : Nat × RespBody :=
  match body with
  | none => (400, .err "texts array is required")
  | some fields =>
    if fields.isEmpty then (400, .err "texts array is required")
    else
      match getField fields "texts" with
      | some (JVal.arr xs) =>
        if 10 < xs.length then (400, .err "Maximum 10 texts per batch")
        else (200, .okBatch (core xs) xs.length)
      | some _ => (400, .err "texts array is required")
      | none => (400, .err "texts array is required")

/-- The request body (an object or absent) has no field `k`. -/
def lacksField (body : Option (List (String × JVal))) (k : String) : Prop :=
  match body with
  | none => True
  | some fields => getField fields k = none

/-- The batch request is invalid per the claim: the `texts` array is missing
(no body, no `texts` key, or a non-array value) or has more than 10 items. -/
def textsBad (body : Option (List (String × JVal))) : Prop :=
  match body with
  | none => True
  | some fields =>
    match getField fields "texts" with
    | none => True
    | some (JVal.arr xs) => 10 < xs.length
    | some _ => True

/-- ASCII lower-casing of one character, as Python `str.lower()` acts on the
ASCII range. -/
def charLower (c : Char) : Char :=
  if 65 ≤ c.toNat ∧ c.toNat ≤ 90 then Char.ofNat (c.toNat + 32) else c

/-- Modelled from the spec: the probe-key normalization `term.lower()` of
the MappingOverlay (spec §3 WordMapping: "keys are always stored
lower-cased; lookups normalize the probe key the same way"). -/
def pyLower (s : String) : String :=
  ⟨s.data.map charLower⟩

/-- Modelled from the spec: the MappingOverlay lookup (spec §4.1) — a
substitution table whose keys are stored lower-cased, probed with the
lower-cased term. No mapping table exists in `src/` (the spec's `/mapping`
routes and overlay component are absent from the provided sources). -/
def overlayLookup (table : List (String × String)) (term : String) : Option String :=
  (table.find? (fun p => p.1 == pyLower term)).map Prod.snd

/-- Modelled from the spec: the TranslatorFacade consulting the
MappingOverlay first (spec §4.8) — on a hit the mapped value is returned;
only on a miss is the remote translation path `remote` invoked. -/
def overlayTranslate (table : List (String × String)) (term : String)
    (remote : String → String) : String :=
  match overlayLookup table term with
  | some v => v
  | none => remote term

/-- An attempt oracle whose first extraction sees a genuine Urdu result. -/
def successAttemptEnv : AttemptEnv :=
  { onPage := true, navRaises := false, inputFound := true, typeRaises := false,
    elems1 := ["سلام"], clickRaises := false, elems2 := [] }

/-! ## Helper lemmas -/

theorem resumeWith_of_not_success (o : AttemptOutcome) (next : String)
    (h : o.isSuccess = false) : resumeWith o next = next := by
  cases o with
  | success s => simp [AttemptOutcome.isSuccess] at h
  | failed => rfl
  | raised => rfl

theorem translate_single_eq_self_of_no_success (text : String) (env : Nat → AttemptEnv)
    (h0 : (runAttempt text (env 0) false).isSuccess = false)
    (h1 : (runAttempt text (env 1) false).isSuccess = false)
    (h2 : (runAttempt text (env 2) true).isSuccess = false) :
    translate_single text env = text := by
  unfold translate_single
  split
  · rfl
  · rw [resumeWith_of_not_success _ _ h2, resumeWith_of_not_success _ _ h1,
      resumeWith_of_not_success _ _ h0]

theorem extract_translation_urdu (elems : List String)
    (h : extract_translation elems ≠ "") :
    contains_urdu (extract_translation elems) = true := by
  unfold extract_translation at h ⊢
  cases hf : elems.find? (fun e => pyStrip e != "" && contains_urdu (pyStrip e)) with
  | none => rw [hf] at h; simp at h
  | some e =>
    have hp := List.find?_some hf
    simp only [bne_iff_ne, ne_eq, Bool.and_eq_true, decide_eq_true_eq] at hp
    exact hp.2

theorem runAttempt_success_urdu (text : String) (e : AttemptEnv) (isLast : Bool)
    (s : String) (h : runAttempt text e isLast = AttemptOutcome.success s) :
    s ≠ "" ∧ contains_urdu s = true := by
  unfold runAttempt at h
  repeat' split at h
  any_goals exact AttemptOutcome.noConfusion h
  all_goals
    rename_i hc
    injection h with hs
    subst hs
    simp only [bne_iff_ne, ne_eq, Bool.and_eq_true, decide_eq_true_eq] at hc
    first
      | exact ⟨hc.1.1, extract_translation_urdu _ hc.1.1⟩
      | exact ⟨hc.1, extract_translation_urdu _ hc.1⟩

/-! ## Claim theorems -/

/-- C4 counterexample: U+06FF (ARABIC LETTER HEH WITH INVERTED V) lies in the
Arabic/Urdu Unicode block, so the one-character string of it is a non-empty
string composed purely of target-script code points; yet `_contains_urdu`
classifies it as NOT in the target script, because Python's
`range(0x0600, 0x06FF)` excludes its upper bound. -/
theorem contains_urdu_counterexample :
    ("ۿ" : String) ≠ "" ∧
    (∀ c ∈ ("ۿ" : String).data, inArabicBlock c = true) ∧
    contains_urdu "ۿ" = false := by decide

/-- C4 (amended): with the configured half-open ranges U+0600..U+06FE and
U+FE70..U+FEFE in place of the full Arabic/Urdu block, the predicate
classifies every non-empty string of purely in-range code points as in the
target script, classifies purely-Latin strings as not, and a single
in-range character anywhere suffices. -/
theorem contains_urdu_classification (s : String) :
    (s ≠ "" → (∀ c ∈ s.data, isUrduChar c = true) → contains_urdu s = true) ∧
    ((∀ c ∈ s.data, isLatinChar c = true) → contains_urdu s = false) ∧
    (∀ c ∈ s.data, isUrduChar c = true → contains_urdu s = true) := by
  refine ⟨?_, ?_, ?_⟩
  · intro hne hall
    have hd : s.data ≠ [] := by
      intro hnil
      apply hne
      cases s with
      | mk d => simp only at hnil; rw [hnil]
    obtain ⟨c, hc⟩ := List.exists_mem_of_ne_nil s.data hd
    exact List.any_eq_true.mpr ⟨c, hc, hall c hc⟩
  · intro hall
    unfold contains_urdu
    rw [List.any_eq_false]
    intro c hc
    have hl := hall c hc
    simp only [isLatinChar, decide_eq_true_eq] at hl
    simp only [isUrduChar, Bool.or_eq_true, Bool.and_eq_true, decide_eq_true_eq]
    omega
  · intro c hc hu
    exact List.any_eq_true.mpr ⟨c, hc, hu⟩

/-- C4 witness: a purely-Urdu string classifies in-script and a purely-Latin
string does not. -/
theorem contains_urdu_classification_witness :
    contains_urdu "سلام" = true ∧ contains_urdu "hello" = false :=
  ⟨(contains_urdu_classification "سلام").1 (by decide) (by decide),
   (contains_urdu_classification "hello").2.1 (by decide)⟩

/-- C9: an input that is empty or whitespace-only is returned unchanged by
`translate_single`, and the result does not depend on the browser oracle at
all — no navigation, submission or extraction outcome can affect it. -/
theorem translate_single_blank_input_identity (text : String)
    (env env' : Nat → AttemptEnv) (h : pyStrip text = "") :
    translate_single text env = text ∧
    translate_single text env = translate_single text env' := by
  have hg : (text == "" || pyStrip text == "") = true := by
    simp [h]
  unfold translate_single
  rw [if_pos hg, if_pos hg]
  exact ⟨rfl, rfl⟩

/-- C9 witness: a whitespace-only string is returned unchanged, whether every
interaction fails or a translation is available. -/
theorem translate_single_blank_input_identity_witness :
    translate_single " \t" (fun _ => failAttemptEnv) = " \t" ∧
    translate_single " \t" (fun _ => failAttemptEnv)
      = translate_single " \t" (fun _ => successAttemptEnv) :=
  translate_single_blank_input_identity " \t" (fun _ => failAttemptEnv)
    (fun _ => successAttemptEnv) (by decide)

/-- C1: `translate_single` performs at most 3 attempts — its result depends
only on the oracles of attempts 0, 1 and 2 — and when none of the three
attempts succeeds (every attempt exits by fall-through or by a caught
exception), it returns the original input unchanged; the result is a plain
string in every case, never a propagated exception. -/
theorem translate_single_three_attempts_identity_fallback (text : String)
    (env env' : Nat → AttemptEnv)
    (hagree : ∀ i, i < 3 → env i = env' i)
    (h0 : (runAttempt text (env 0) false).isSuccess = false)
    (h1 : (runAttempt text (env 1) false).isSuccess = false)
    (h2 : (runAttempt text (env 2) true).isSuccess = false) :
    translate_single text env = translate_single text env' ∧
    translate_single text env = text := by
  constructor
  · unfold translate_single
    rw [hagree 0 (by omega), hagree 1 (by omega), hagree 2 (by omega)]
  · exact translate_single_eq_self_of_no_success text env h0 h1 h2

/-- C1 witness: with every attempt raising (input textarea never found) the
input comes back unchanged, and oracles for attempts past index 2 are
irrelevant. -/
theorem translate_single_three_attempts_identity_fallback_witness :
    translate_single "hello world" (fun _ => failAttemptEnv) = "hello world" :=
  (translate_single_three_attempts_identity_fallback "hello world"
    (fun _ => failAttemptEnv)
    (fun i => if i < 3 then failAttemptEnv else successAttemptEnv)
    (by intro i hi; simp [hi]) rfl rfl rfl).2

/-- C10: whenever `translate_single` returns something other than its input,
that result was produced by `_extract_translation`, so it is non-empty and
contains at least one character in the configured Arabic/Urdu ranges. -/
theorem translate_single_changed_implies_urdu (text : String)
    (env : Nat → AttemptEnv) (h : translate_single text env ≠ text) :
    translate_single text env ≠ "" ∧
    contains_urdu (translate_single text env) = true := by
  unfold translate_single at h ⊢
  by_cases hg : (text == "" || pyStrip text == "") = true
  · rw [if_pos hg] at h; exact absurd rfl h
  · rw [if_neg hg] at h ⊢
    cases ha0 : runAttempt text (env 0) false with
    | success s => exact runAttempt_success_urdu text (env 0) false s ha0
    | failed =>
      cases ha1 : runAttempt text (env 1) false with
      | success s => exact runAttempt_success_urdu text (env 1) false s ha1
      | failed =>
        cases ha2 : runAttempt text (env 2) true with
        | success s => exact runAttempt_success_urdu text (env 2) true s ha2
        | failed => rw [ha0, ha1, ha2] at h; exact absurd rfl h
        | raised => rw [ha0, ha1, ha2] at h; exact absurd rfl h
      | raised =>
        cases ha2 : runAttempt text (env 2) true with
        | success s => exact runAttempt_success_urdu text (env 2) true s ha2
        | failed => rw [ha0, ha1, ha2] at h; exact absurd rfl h
        | raised => rw [ha0, ha1, ha2] at h; exact absurd rfl h
    | raised =>
      cases ha1 : runAttempt text (env 1) false with
      | success s => exact runAttempt_success_urdu text (env 1) false s ha1
      | failed =>
        cases ha2 : runAttempt text (env 2) true with
        | success s => exact runAttempt_success_urdu text (env 2) true s ha2
        | failed => rw [ha0, ha1, ha2] at h; exact absurd rfl h
        | raised => rw [ha0, ha1, ha2] at h; exact absurd rfl h
      | raised =>
        cases ha2 : runAttempt text (env 2) true with
        | success s => exact runAttempt_success_urdu text (env 2) true s ha2
        | failed => rw [ha0, ha1, ha2] at h; exact absurd rfl h
        | raised => rw [ha0, ha1, ha2] at h; exact absurd rfl h

/-- C10 witness: a successful extraction returns a non-empty Urdu-script
string different from the input. -/
theorem translate_single_changed_implies_urdu_witness :
    translate_single "hello" (fun _ => successAttemptEnv) ≠ "" ∧
    contains_urdu (translate_single "hello" (fun _ => successAttemptEnv)) = true :=
  translate_single_changed_implies_urdu "hello" (fun _ => successAttemptEnv) (by decide)

theorem any_key_eq (d : List (String × String)) (k : String) :
    d.any (fun p => p.1 == k) = true ↔ k ∈ d.map Prod.fst := by
  simp [List.any_eq_true]

theorem dictInsert_keys (d : List (String × String)) (k v : String) :
    (dictInsert d k v).map Prod.fst =
      if d.any (fun p => p.1 == k) then d.map Prod.fst else d.map Prod.fst ++ [k] := by
  unfold dictInsert
  split
  · rw [List.map_map]
    apply List.map_congr_left
    intro p _
    by_cases hp : p.1 = k
    · simp [Function.comp, hp]
    · simp [Function.comp, hp]
  · simp

theorem dictInsert_mem_keys (d : List (String × String)) (k v t : String) :
    t ∈ (dictInsert d k v).map Prod.fst ↔ t ∈ d.map Prod.fst ∨ t = k := by
  rw [dictInsert_keys]
  split
  · next hany =>
    rw [any_key_eq] at hany
    constructor
    · exact Or.inl
    · rintro (ht | rfl)
      · exact ht
      · exact hany
  · simp

theorem dictInsert_keys_nodup (d : List (String × String)) (k v : String)
    (h : (d.map Prod.fst).Nodup) : ((dictInsert d k v).map Prod.fst).Nodup := by
  rw [dictInsert_keys]
  split
  · exact h
  · next hany =>
    rw [List.nodup_append]
    refine ⟨h, List.nodup_singleton k, ?_⟩
    intro a ha hb
    rw [List.mem_singleton] at hb
    subst hb
    exact hany ((any_key_eq d a).mpr ha)

theorem dictInsert_id_values (d : List (String × String)) (k : String)
    (h : ∀ p ∈ d, p.2 = p.1) : ∀ p ∈ dictInsert d k k, p.2 = p.1 := by
  unfold dictInsert
  split
  · intro p hp
    rw [List.mem_map] at hp
    obtain ⟨q, hq, he⟩ := hp
    by_cases hqk : q.1 = k
    · rw [← he]; simp [hqk]
    · rw [← he]; simp only [hqk, beq_iff_eq, if_neg hqk]; exact h q hq
  · intro p hp
    rw [List.mem_append] at hp
    rcases hp with hp | hp
    · exact h p hp
    · rw [List.mem_singleton] at hp; subst hp; rfl

theorem batchLoop_mem_keys (env : Nat → Nat → AttemptEnv) (ts : List String) :
    ∀ (i : Nat) (acc : List (String × String)) (t : String),
    t ∈ (batchLoop env ts i acc).map Prod.fst ↔ t ∈ acc.map Prod.fst ∨ t ∈ ts := by
  induction ts with
  | nil => intro i acc t; simp [batchLoop]
  | cons x xs ih =>
    intro i acc t
    rw [batchLoop, ih, dictInsert_mem_keys]
    simp only [List.mem_cons]
    tauto

theorem batchLoop_keys_nodup (env : Nat → Nat → AttemptEnv) (ts : List String) :
    ∀ (i : Nat) (acc : List (String × String)), (acc.map Prod.fst).Nodup →
    ((batchLoop env ts i acc).map Prod.fst).Nodup := by
  induction ts with
  | nil => intro i acc h; exact h
  | cons x xs ih =>
    intro i acc h
    rw [batchLoop]
    exact ih _ _ (dictInsert_keys_nodup _ _ _ h)

theorem batchLoop_id_values (env : Nat → Nat → AttemptEnv) (ts : List String)
    (hid : ∀ i t, translate_single t (env i) = t) :
    ∀ (i : Nat) (acc : List (String × String)), (∀ p ∈ acc, p.2 = p.1) →
    ∀ p ∈ batchLoop env ts i acc, p.2 = p.1 := by
  induction ts with
  | nil => intro i acc h; exact h
  | cons x xs ih =>
    intro i acc h
    rw [batchLoop]
    apply ih
    rw [hid i x]
    exact dictInsert_id_values acc x h

/-- C2 counterexample: batch translation does NOT always return one entry per
input. First, a navigation failure before the first item makes
`translate_batch` catch the exception and return the empty dict — zero
entries for one input. Second, two equal inputs collapse into one dict
entry — one entry for two inputs. -/
theorem translate_batch_counterexample :
    translate_batch ["hello"] false (fun _ _ => failAttemptEnv) = [] ∧
    (translate_batch ["a", "a"] true (fun _ _ => failAttemptEnv)).length = 1 := by
  constructor
  · rfl
  · decide

/-- C2 (amended): when the initial navigation succeeds, batch translation
returns a mapping keyed by exactly the distinct input strings (each input
appears as a key, keys are duplicate-free), and when every attempt of every
item fails each value falls back to the item itself; when the initial
navigation fails, the returned mapping is empty. -/
theorem translate_batch_distinct_keys_identity (texts : List String)
    (env : Nat → Nat → AttemptEnv) (t : String) (p : String × String)
    (hfail : ∀ i u, (runAttempt u (env i 0) false).isSuccess = false ∧
      (runAttempt u (env i 1) false).isSuccess = false ∧
      (runAttempt u (env i 2) true).isSuccess = false) :
    (t ∈ (translate_batch texts true env).map Prod.fst ↔ t ∈ texts) ∧
    ((translate_batch texts true env).map Prod.fst).Nodup ∧
    (p ∈ translate_batch texts true env → p.2 = p.1) ∧
    translate_batch texts false env = [] := by
  have hid : ∀ i u, translate_single u (env i) = u := fun i u =>
    translate_single_eq_self_of_no_success u (env i)
      (hfail i u).1 (hfail i u).2.1 (hfail i u).2.2
  have hnav : translate_batch texts true env = batchLoop env texts 0 [] := rfl
  refine ⟨?_, ?_, ?_, rfl⟩
  · rw [hnav, batchLoop_mem_keys]
    simp
  · rw [hnav]
    exact batchLoop_keys_nodup env texts 0 [] (by simp)
  · rw [hnav]
    exact fun hp => batchLoop_id_values env texts hid 0 [] (by simp) p hp

/-- C2 witness: with a successful navigation and every attempt failing, the
batch result for a concrete list carries each input as a key with itself as
value, and a failed navigation yields the empty mapping. -/
theorem translate_batch_distinct_keys_identity_witness :
    (("a" ∈ (translate_batch ["a", "b"] true (fun _ _ => failAttemptEnv)).map Prod.fst)
      ↔ "a" ∈ ["a", "b"]) ∧
    translate_batch ["a", "b"] false (fun _ _ => failAttemptEnv) = [] :=
  ⟨(translate_batch_distinct_keys_identity ["a", "b"] (fun _ _ => failAttemptEnv)
      "a" ("a", "a") (fun _ _ => ⟨rfl, rfl, rfl⟩)).1,
   (translate_batch_distinct_keys_identity ["a", "b"] (fun _ _ => failAttemptEnv)
      "a" ("a", "a") (fun _ _ => ⟨rfl, rfl, rfl⟩)).2.2.2⟩

/-- C3 counterexample: with no session yet and a failing driver/launch setup
(`setupOk = false`), the service constructor raises inside
`AutoTranslator.translate`'s `try:` — the body errors — but the facade's
`except` swallows it and the caller of the first translate request receives
the identity fallback `{"hello": "hello"}` normally, with no session created
and NO error propagated. -/
theorem launch_failure_not_propagated_counterexample :
    autoTranslateBody ⟨none, 0⟩ false (Sum.inl "hello") true (fun _ _ => failAttemptEnv)
      = Except.error () ∧
    autoTranslate ⟨none, 0⟩ false (Sum.inl "hello") true (fun _ _ => failAttemptEnv)
      = (⟨none, 0⟩, [("hello", "hello")]) :=
  ⟨rfl, rfl⟩

/-- C3 (amended): a driver/launch error during session creation is NOT
propagated: `AutoTranslator.translate` catches it like any other failure and
returns the identity fallback with its state unchanged, so no failure at all
— startup or remote — surfaces as an error from the facade's translate. -/
theorem autoTranslate_absorbs_launch_failure (st : AutoSt)
    (input : String ⊕ List String) (navOk : Bool) (env : Nat → Nat → AttemptEnv)
    (h : st.service = none) :
    autoTranslate st false input navOk env = (st, identityFallback input) := by
  unfold autoTranslate autoTranslateBody
  rw [h]
  rfl

/-- C3 witness: the amended behaviour at a concrete state and input. -/
theorem autoTranslate_absorbs_launch_failure_witness :
    autoTranslate ⟨none, 3⟩ false (Sum.inl "x") true (fun _ _ => failAttemptEnv)
      = (⟨none, 3⟩, [("x", "x")]) :=
  autoTranslate_absorbs_launch_failure ⟨none, 3⟩ (Sum.inl "x") true
    (fun _ _ => failAttemptEnv) rfl

/-- C7 counterexample: create a session via translate (sessions = 1), then
`close()` — which quits the driver but leaves `self.service` set — then
translate again: the facade reuses the released service object and creates
NO new session (sessions stays 1), contradicting "re-creates the browser
session rather than using the released one". -/
theorem close_then_translate_reuses_counterexample :
    (autoTranslate ⟨none, 0⟩ true (Sum.inl "hi") true (fun _ _ => failAttemptEnv)).1
      = ⟨some false, 1⟩ ∧
    autoClose ⟨some false, 1⟩ = Except.ok ⟨some true, 1⟩ ∧
    (autoTranslate ⟨some true, 1⟩ true (Sum.inl "hi") true (fun _ _ => failAttemptEnv)).1
      = ⟨some true, 1⟩ :=
  ⟨rfl, rfl, rfl⟩

/-- C7 (amended): when a service exists, `close()` succeeds (never raises —
`driver.quit` errors are swallowed) and is safe to call again on the
resulting state; but a translate call after close does NOT re-create the
session: it leaves the closed service and the session count untouched. -/
theorem autoClose_safe_no_recreate (st : AutoSt) (q : Bool) (h : st.service = some q)
    (setupOk : Bool) (input : String ⊕ List String) (navOk : Bool)
    (env : Nat → Nat → AttemptEnv) :
    autoClose st = Except.ok { st with service := some true } ∧
    autoClose { st with service := some true }
      = Except.ok { st with service := some true } ∧
    (autoTranslate { st with service := some true } setupOk input navOk env).1
      = { st with service := some true } := by
  refine ⟨?_, ?_, ?_⟩
  · unfold autoClose
    rw [h]
    cases q <;> rfl
  · rfl
  · rfl

/-- C7 witness: the amended behaviour at a concrete closed state. -/
theorem autoClose_safe_no_recreate_witness :
    autoClose ⟨some false, 2⟩ = Except.ok ⟨some true, 2⟩ ∧
    autoClose ⟨some true, 2⟩ = Except.ok ⟨some true, 2⟩ ∧
    (autoTranslate ⟨some true, 2⟩ true (Sum.inl "y") true (fun _ _ => failAttemptEnv)).1
      = ⟨some true, 2⟩ :=
  autoClose_safe_no_recreate ⟨some false, 2⟩ false rfl true (Sum.inl "y") true
    (fun _ _ => failAttemptEnv)

theorem guardedStep_inv (s : LazyInitState) (t : Bool)
    (h : s.created = if s.resource then 1 else 0) :
    (guardedStep s t).created = if (guardedStep s t).resource then 1 else 0 := by
  unfold guardedStep
  cases t with
  | false =>
    by_cases hd : s.doneA
    · simp only [if_pos hd, Bool.false_eq_true, if_false]
      exact h
    · by_cases hr : s.resource
      · simp only [if_neg hd, if_pos hr, Bool.false_eq_true, if_false]
        rw [if_pos hr] at h
        simp [hr, h]
      · simp only [if_neg hd, if_neg hr, Bool.false_eq_true, if_false]
        rw [if_neg hr] at h
        simp [h]
  | true =>
    by_cases hd : s.doneB
    · simp only [if_pos hd, if_true]
      exact h
    · by_cases hr : s.resource
      · simp only [if_neg hd, if_pos hr, if_true]
        rw [if_pos hr] at h
        simp [hr, h]
      · simp only [if_neg hd, if_neg hr, if_true]
        rw [if_neg hr] at h
        simp [h]

theorem foldl_guarded_inv (sched : List Bool) :
    ∀ (s : LazyInitState), s.created = (if s.resource then 1 else 0) →
    (sched.foldl guardedStep s).created
      = if (sched.foldl guardedStep s).resource then 1 else 0 := by
  induction sched with
  | nil => intro s h; exact h
  | cons x xs ih =>
    intro s h
    exact ih (guardedStep s x) (guardedStep_inv s x h)

/-- C5 counterexample: the lazy session creation inside
`AutoTranslator.translate` is NOT guarded by any mutual exclusion. Under the
interleaving "A checks, B checks, A creates, B creates" both concurrent
first callers observe `service is None` and both construct a browser
session: two sessions are created, not exactly one. -/
theorem unguarded_double_session_counterexample :
    (runUnguarded [false, true, false, true]).created = 2 := by decide

/-- C5 (amended): only the facade-instance creation in `app.get_translator`
is guarded by a lock (its check-then-create region is atomic), and under any
interleaving of two callers it creates exactly one instance — one whenever
some caller has completed, never more than one; session creation inside
`AutoTranslator.translate` enjoys no such guard (see the counterexample). -/
theorem guarded_get_translator_single_instance (sched sched' : List Bool)
    (h : (runGuarded sched).resource = true) :
    (runGuarded sched).created = 1 ∧ (runGuarded sched').created ≤ 1 := by
  have h1 : (runGuarded sched).created
      = if (runGuarded sched).resource then 1 else 0 :=
    foldl_guarded_inv sched lazyStart rfl
  have h2 : (runGuarded sched').created
      = if (runGuarded sched').resource then 1 else 0 :=
    foldl_guarded_inv sched' lazyStart rfl
  constructor
  · rw [h1, h]
    rfl
  · rw [h2]
    split <;> omega

/-- C5 witness: one caller alone creates the single instance; a two-caller
schedule still creates at most one. -/
theorem guarded_get_translator_single_instance_witness :
    (runGuarded [false]).created = 1 ∧ (runGuarded [true, false]).created ≤ 1 :=
  guarded_get_translator_single_instance [false] [true, false] (by decide)

theorem find?_key_eq (table : List (String × String)) (k v : String)
    (hnd : (table.map Prod.fst).Nodup) (hmem : (k, v) ∈ table) :
    table.find? (fun p => p.1 == k) = some (k, v) := by
  induction table with
  | nil => cases hmem
  | cons q qs ih =>
    rw [List.map_cons, List.nodup_cons] at hnd
    by_cases hq : q.1 = k
    · have hqe : q = (k, v) := by
        rcases List.mem_cons.mp hmem with he | hin
        · exact he.symm
        · exfalso
          apply hnd.1
          rw [hq]
          exact List.mem_map.mpr ⟨(k, v), hin, rfl⟩
      rw [List.find?_cons_of_pos _ (by simp [hq]), hqe]
    · have hin : (k, v) ∈ qs := by
        rcases List.mem_cons.mp hmem with he | hin
        · exact absurd (congrArg Prod.fst he.symm) hq
        · exact hin
      rw [List.find?_cons_of_neg _ (by simp [hq])]
      exact ih hnd.2 hin

/-- Modelled from the spec — C6: for a term present in the mapping table
(its lower-cased key mapped to `v`, keys duplicate-free as the table's
load/save contract keeps them), the overlay-consulting facade returns
exactly the mapped value, and the remote translation path is never invoked:
the result is the same under any remote translator whatsoever. -/
theorem overlay_hit_no_remote (table : List (String × String)) (term v : String)
    (remote remote' : String → String)
    (hnd : (table.map Prod.fst).Nodup) (hmem : (pyLower term, v) ∈ table) :
    overlayTranslate table term remote = v ∧
    overlayTranslate table term remote = overlayTranslate table term remote' := by
  have hl : overlayLookup table term = some v := by
    unfold overlayLookup
    rw [find?_key_eq table (pyLower term) v hnd hmem]
    rfl
  unfold overlayTranslate
  rw [hl]
  exact ⟨rfl, rfl⟩

/-- C6 witness: with the table mapping "house" to its Urdu term, translating
"HOUSE" returns the mapped value under an identity remote translator. -/
theorem overlay_hit_no_remote_witness :
    overlayTranslate [("house", "گھر")] "HOUSE" (fun s => s) = "گھر" :=
  (overlay_hit_no_remote [("house", "گھر")] "HOUSE" "گھر" (fun s => s)
    (fun _ => "") (by decide) (by decide)).1

/-- C8: the HTTP boundary validates before touching the automation core.
When the request body (a JSON object, possibly absent) lacks `text`,
`POST /translate` answers 400 with an error body; when the `texts` array is
missing (or not an array) or longer than 10, `POST /translate/batch` answers
400 with an error body; in every such case the response is identical under
any two cores, i.e. the automation core is never invoked. -/
theorem http_boundary_validation (body : Option (List (String × JVal)))
    (c c' : JVal → List (String × String))
    (b b' : List JVal → List (String × String)) :
    (lacksField body "text" →
      (translateRoute body c).1 = 400 ∧
      (translateRoute body c).2 = RespBody.err "Text is required" ∧
      translateRoute body c = translateRoute body c') ∧
    (textsBad body →
      (translateBatchRoute body b).1 = 400 ∧
      translateBatchRoute body b = translateBatchRoute body b') := by
  constructor
  · intro h
    cases body with
    | none => exact ⟨rfl, rfl, rfl⟩
    | some fields =>
      unfold translateRoute
      by_cases he : fields.isEmpty
      · simp [he]
      · have h' : getField fields "text" = none := h
        simp [he, h']
  · intro h
    cases body with
    | none => exact ⟨rfl, rfl⟩
    | some fields =>
      unfold translateBatchRoute
      by_cases he : fields.isEmpty
      · simp [he]
      · cases hg : getField fields "texts" with
        | none => simp [he, hg]
        | some v =>
          cases v with
          | arr xs =>
            have h2 : (match getField fields "texts" with
              | none => True
              | some (JVal.arr xs) => 10 < xs.length
              | some _ => True) := h
            rw [hg] at h2
            have h3 : 10 < xs.length := h2
            simp [he, hg, h3]
          | str s => simp [he, hg]
          | num n => simp [he, hg]

/-- C8 witness: a body carrying neither `text` nor `texts` is rejected with
400 by both routes. -/
theorem http_boundary_validation_witness :
    (translateRoute (some [("foo", JVal.num 1)]) (fun _ => [])).1 = 400 ∧
    (translateBatchRoute (some [("foo", JVal.num 1)]) (fun _ => [])).1 = 400 :=
  ⟨((http_boundary_validation (some [("foo", JVal.num 1)]) (fun _ => [])
      (fun _ => [("x", "y")]) (fun _ => []) (fun _ => [("x", "y")])).1 rfl).1,
   ((http_boundary_validation (some [("foo", JVal.num 1)]) (fun _ => [])
      (fun _ => [("x", "y")]) (fun _ => []) (fun _ => [("x", "y")])).2 trivial).1⟩

end AutoTranslatorModel

